import Mathlib

/-
Verification development for the SentinelAI stock-analysis service
(src/python-service/main.py).

Shallow embedding conventions:
* Python floats are modelled as exact rationals (ℚ); `round(x, 2)` is
  modelled by `round2`, round-half-to-even at two decimal places.
* The provider's `info` dictionary is modelled by the `InfoDict` record of
  optional fields (absent key = `none`); the OHLCV history is a `List Bar`.
* The `live_data` dictionary literal is modelled as an association list
  `List (String × JVal)` preserving the source's key order; `JVal` is the
  JSON-ish value type appearing in that dictionary.
* The two external collaborators (market-data provider, language-model
  provider) are black boxes: the provider's reply is an explicit input
  (`StockData`), and the outcome of the language-model call is an explicit
  `LLMOutcome` input.  Division on ℚ is total (x / 0 = 0), standing in for
  the provider's numeric edge cases.
-/

/-- JSON-like values stored in the `live_data` dictionary. -/
inductive JVal where
  | null
  | num (q : ℚ)
  | str (s : String)
deriving DecidableEq

/-- The `live_data` dictionary: an association list keyed by strings,
in the literal order of the source dictionary. -/
abbrev LiveData := List (String × JVal)

/-- First-match dictionary lookup, the semantics of Python `d[k]` /
`d.get(k)` on a dict with unique keys. -/
def dlookup : LiveData → String → Option JVal
  | [], _ => none
  | (k, v) :: rest, key => if key = k then some v else dlookup rest key

/-- Python `live_data.get(k, dflt)` restricted to numeric use: a present
numeric value is returned as `some q`; a present `None` is `none`
(Python returns the stored `None`, not the default); an absent key returns
the default.  Non-numeric values never occur at the numeric keys of any
dictionary built by `fetch_stock_data`, and are mapped to `none`. -/
def getNum (d : LiveData) (k : String) (dflt : ℚ) : Option ℚ :=
  match dlookup d k with
  | none => some dflt
  | some (JVal.num q) => some q
  | some _ => none

/-- The numeric value of a metric that is present (non-null) in the
dictionary; `none` when the key is missing or maps to null. -/
def metricVal (d : LiveData) (k : String) : Option ℚ :=
  match dlookup d k with
  | some (JVal.num q) => some q
  | _ => none

/-- Round-half-to-even to the nearest integer, the semantics of Python's
built-in `round` (modelled on exact rationals). -/
def rndHalfEven (q : ℚ) : ℤ :=
  if q - (⌊q⌋ : ℚ) < 1 / 2 then ⌊q⌋
  else if (1 : ℚ) / 2 < q - (⌊q⌋ : ℚ) then ⌊q⌋ + 1
  else if ⌊q⌋ % 2 = 0 then ⌊q⌋ else ⌊q⌋ + 1

/-- Python `round(x, 2)` on exact rationals. -/
def round2 (q : ℚ) : ℚ := (rndHalfEven (q * 100) : ℚ) / 100

/-- Python `int(x)`: truncation toward zero. -/
def pyInt (q : ℚ) : ℤ := if 0 ≤ q then ⌊q⌋ else ⌈q⌉

/-- Last element of a series (`iloc[-1]`); the default is never reached
because every use is guarded by a non-emptiness check. -/
def lastD (l : List ℚ) : ℚ := l.getLast?.getD 0

/-- Element at a position (`iloc[i]` for non-negative effective index);
uses are guarded by length checks in the source. -/
def nthD (l : List ℚ) (i : Nat) : ℚ := (l[i]?).getD 0

/-- `series.max()` over a non-empty series (guarded). -/
def listMaxD : List ℚ → ℚ
  | [] => 0
  | x :: xs => xs.foldl max x

/-- `series.min()` over a non-empty series (guarded). -/
def listMinD : List ℚ → ℚ
  | [] => 0
  | x :: xs => xs.foldl min x

/-- `series.mean()` over a non-empty series (guarded). -/
def listMeanD (l : List ℚ) : ℚ := l.sum / (l.length : ℚ)

/-- One row of the daily OHLCV price history. -/
structure Bar where
  close : ℚ
  high : ℚ
  low : ℚ
  volume : ℚ

/-- The market-data provider's `info` dictionary, restricted to the keys
the service reads; `none` models an absent key. -/
structure InfoDict where
  longName : Option String
  sector : Option String
  industry : Option String
  currency : Option String
  marketCap : Option ℚ
  trailingPE : Option ℚ
  forwardPE : Option ℚ
  pegRatio : Option ℚ
  priceToBook : Option ℚ
  profitMargins : Option ℚ
  operatingMargins : Option ℚ
  returnOnEquity : Option ℚ
  debtToEquity : Option ℚ
  revenueGrowth : Option ℚ
  earningsGrowth : Option ℚ
  fiftyDayAverage : Option ℚ
  twoHundredDayAverage : Option ℚ
  dividendYield : Option ℚ
  beta : Option ℚ
  recommendationKey : Option String
  targetMeanPrice : Option ℚ

/-- The market-data provider's reply for one ticker: the `info`
dictionary and the price-history series. -/
structure StockData where
  info : InfoDict
  hist : List Bar

/-- Request body of `POST /api/generate-report`. -/
structure AnalysisRequest where
  company_name : String
  email : String

/-- Response envelope of `POST /api/generate-report`. -/
structure AnalysisResponse where
  success : Bool
  live_data : Option LiveData
  report : Option String
  error : Option String

/-- Response of `GET /api/verify-price/{ticker}`. -/
structure VerifyResponse where
  ticker : String
  price : Option ℚ
  company : String
  valid : Bool

/-- `round(info.get(k, 0), 2) if info.get(k) else None`:
absent or zero provider values yield null, anything else is rounded. -/
def roundIf (x : Option ℚ) : JVal :=
  match x with
  | none => JVal.null
  | some v => if v = 0 then JVal.null else JVal.num (round2 v)

/-- `round(info.get(k, 0) * 100, 2) if info.get(k) else None`:
the percentage-scaled variant of `roundIf`. -/
def roundIf100 (x : Option ℚ) : JVal :=
  match x with
  | none => JVal.null
  | some v => if v = 0 then JVal.null else JVal.num (round2 (v * 100))

/-- `round(info.get("dividendYield", 0) * 100, 2) if info.get("dividendYield") else 0`:
like `roundIf100` but absent/zero yields the number 0, not null. -/
def divYield (x : Option ℚ) : JVal :=
  match x with
  | none => JVal.num 0
  | some v => if v = 0 then JVal.num 0 else JVal.num (round2 (v * 100))

/-- The `live_data` dictionary literal built by `fetch_stock_data`
(main.py lines 80-119), for a ticker whose history is non-empty. -/
def mkLiveData (ticker : String) (info : InfoDict) (hist : List Bar) : LiveData :=
  let closes := hist.map Bar.close
  let current_price := lastD closes
  let year_high := listMaxD (hist.map Bar.high)
  let year_low := listMinD (hist.map Bar.low)
  let avg_volume := listMeanD (hist.map Bar.volume)
  let price_change_1d :=
    if hist.length > 1 then
      (lastD closes - nthD closes (closes.length - 2)) / nthD closes (closes.length - 2) * 100
    else 0
  let price_change_1m :=
    if hist.length > 21 then
      (lastD closes - nthD closes (closes.length - 21)) / nthD closes (closes.length - 21) * 100
    else 0
  [ ("ticker", JVal.str ticker.toUpper),
    ("company_name", JVal.str (info.longName.getD ticker)),
    ("sector", JVal.str (info.sector.getD "Unknown")),
    ("industry", JVal.str (info.industry.getD "Unknown")),
    ("current_price", JVal.num (round2 current_price)),
    ("currency", JVal.str (info.currency.getD "USD")),
    ("market_cap", JVal.num (info.marketCap.getD 0)),
    ("pe_ratio", roundIf info.trailingPE),
    ("forward_pe", roundIf info.forwardPE),
    ("peg_ratio", roundIf info.pegRatio),
    ("price_to_book", roundIf info.priceToBook),
    ("profit_margin", roundIf100 info.profitMargins),
    ("operating_margin", roundIf100 info.operatingMargins),
    ("roe", roundIf100 info.returnOnEquity),
    ("debt_to_equity", roundIf info.debtToEquity),
    ("revenue_growth", roundIf100 info.revenueGrowth),
    ("earnings_growth", roundIf100 info.earningsGrowth),
    ("52_week_high", JVal.num (round2 year_high)),
    ("52_week_low", JVal.num (round2 year_low)),
    ("50_day_avg", JVal.num (round2 (info.fiftyDayAverage.getD current_price))),
    ("200_day_avg", JVal.num (round2 (info.twoHundredDayAverage.getD current_price))),
    ("avg_volume", JVal.num ((pyInt avg_volume : ℤ) : ℚ)),
    ("price_change_1d", JVal.num (round2 price_change_1d)),
    ("price_change_1m", JVal.num (round2 price_change_1m)),
    ("dividend_yield", divYield info.dividendYield),
    ("beta", roundIf info.beta),
    ("analyst_recommendation", JVal.str (info.recommendationKey.getD "hold")),
    ("target_mean_price", roundIf info.targetMeanPrice) ]

/-- Data Collection agent (main.py `fetch_stock_data`): raises
`ValueError` (modelled as `Except.error` with the message of the
exception) when the history series is empty, otherwise returns the
`live_data` dictionary. -/
def fetch_stock_data (ticker : String) (stock : StockData) : Except String LiveData :=
  match stock.hist with
  | [] => Except.error ("No data found for ticker: " ++ ticker)
  | b :: bs => Except.ok (mkLiveData ticker stock.info (b :: bs))

/-- Truthiness-guarded comparison `x and x < c` from the fallback rules:
Python `None` and `0` are falsy, so the comparison is only reached for a
present non-zero value. -/
def condLt (x : Option ℚ) (c : ℚ) : Bool :=
  match x with
  | none => false
  | some v => if v = 0 then false else decide (v < c)

/-- Truthiness-guarded comparison `x and x > c` (see `condLt`). -/
def condGt (x : Option ℚ) (c : ℚ) : Bool :=
  match x with
  | none => false
  | some v => if v = 0 then false else decide (c < v)

/-- The three-branch recommendation computed inside
`generate_fallback_analysis` (main.py lines 221-225).  Python's `and`
binds tighter than `or`, so the `elif` condition is
`(pe and pe > 40) or (margin and margin < 5)`. -/
def fallbackRecommendation (live_data : LiveData) : String :=
  let pe := getNum live_data "pe_ratio" 0
  let margin := getNum live_data "profit_margin" 0
  let growth := getNum live_data "revenue_growth" 0
  if condLt pe 20 && condGt margin 15 && condGt growth 10 then "BUY"
  else if condGt pe 40 || condLt margin 5 then "SELL"
  else "HOLD"

/-- Rendering of a fallback metric value inside the template string.
Python renders `None` as "None"; the exact decimal rendering of numbers is
abstracted by ℚ's `toString`, which no claim inspects. -/
def pyStr (x : Option ℚ) : String :=
  match x with
  | none => "None"
  | some v => toString v

/-- The fixed note closing every fallback report (main.py line 237). -/
def fallbackNote : String :=
  "Note: This is an automated analysis. For detailed insights, ensure ANTHROPIC_API_KEY is configured."

/-- Fallback analysis template (main.py `generate_fallback_analysis`). -/
def generate_fallback_analysis (ticker : String) (live_data : LiveData) : String :=
  let pe := getNum live_data "pe_ratio" 0
  let margin := getNum live_data "profit_margin" 0
  let growth := getNum live_data "revenue_growth" 0
  "AUTOMATED ANALYSIS FOR " ++ ticker ++
  "\n\nVALUATION: P/E Ratio of " ++ pyStr pe ++ " suggests " ++
  (if condLt pe 25 then "attractive valuation" else "premium valuation") ++
  "\n\nPROFITABILITY: Profit margin of " ++ pyStr margin ++ "% indicates " ++
  (if condGt margin 15 then "strong" else "moderate") ++ " profitability" ++
  "\n\nGROWTH: Revenue growth of " ++ pyStr growth ++ "% shows " ++
  (if condGt growth 10 then "impressive" else "steady") ++ " expansion" ++
  "\n\nRECOMMENDATION: " ++ fallbackRecommendation live_data ++
  "\n\n" ++ fallbackNote

/-- Outcome of the single language-model provider call, an input of the
model since the provider is a black box.  `ok text` is a reply whose first
content block carries `text`; the other constructors are the failure modes
(any of which raises inside the `try` block of `generate_ai_analysis`:
timeout, rate limit, or a malformed reply on which `message.content[0]`
or `.text` raises). -/
inductive LLMOutcome where
  | ok (text : String)
  | timeout
  | rateLimited
  | malformed

/-- True on every primary-path failure mode. -/
def llmFailed : LLMOutcome → Bool
  | LLMOutcome.ok _ => false
  | _ => true

/-- Startup client construction (main.py lines 37-41): the client exists
iff the environment credential is set and truthy (non-empty). -/
def anthropic_client (key : Option String) : Option String :=
  match key with
  | none => none
  | some k => if k = "" then none else some k

/-- AI Reasoning agent (main.py `generate_ai_analysis`): without a client
it returns the fallback analysis; with a client it returns the provider's
text on success and degrades to the fallback analysis on any exception.
The prompt string (lines 147-193) is input to the black-box provider only
and does not influence the modelled outcome, so it is not reproduced. -/
def generate_ai_analysis (client : Option String) (outcome : LLMOutcome)
    (ticker : String) (live_data : LiveData) : String :=
  match client with
  | none => generate_fallback_analysis ticker live_data
  | some _ =>
    match outcome with
    | LLMOutcome.ok text => text
    | _ => generate_fallback_analysis ticker live_data

/-- Orchestration endpoint (main.py `generate_report`): normalizes the
ticker, runs the collector, then the generator; any exception is caught
and converted into a `success=false` envelope whose `error` is the
exception message, with the remaining fields left at their `None`
defaults. -/
def generate_report (key : Option String) (outcome : LLMOutcome)
    (request : AnalysisRequest) (stock : StockData) : AnalysisResponse :=
  let ticker := request.company_name.trim.toUpper
  match fetch_stock_data ticker stock with
  | Except.error e => ⟨false, none, none, some e⟩
  | Except.ok live_data =>
    ⟨true, some live_data, some (generate_ai_analysis (anthropic_client key) outcome ticker live_data), none⟩

/-- Quick price-check endpoint (main.py `verify_price`), on the provider's
single-day history reply. -/
def verify_price (ticker : String) (stock : StockData) : VerifyResponse :=
  ⟨ticker.toUpper,
   if stock.hist.isEmpty then none
   else some (round2 (lastD (stock.hist.map Bar.close))),
   stock.info.longName.getD ticker,
   !stock.hist.isEmpty⟩

/-- The enumerated metric keys of `live_data`, in source order. -/
def enumKeys : List String :=
  ["ticker", "company_name", "sector", "industry", "current_price",
   "currency", "market_cap", "pe_ratio", "forward_pe", "peg_ratio",
   "price_to_book", "profit_margin", "operating_margin", "roe",
   "debt_to_equity", "revenue_growth", "earnings_growth", "52_week_high",
   "52_week_low", "50_day_avg", "200_day_avg", "avg_volume",
   "price_change_1d", "price_change_1m", "dividend_yield", "beta",
   "analyst_recommendation", "target_mean_price"]

/-- The monetary/ratio keys of `live_data` that the code rounds to two
decimal places (all of the claim's monetary/ratio fields except
`market_cap`, which is passed through unrounded). -/
def roundedKeys : List String :=
  ["current_price", "pe_ratio", "forward_pe", "peg_ratio",
   "price_to_book", "profit_margin", "operating_margin", "roe",
   "debt_to_equity", "revenue_growth", "earnings_growth", "52_week_high",
   "52_week_low", "50_day_avg", "200_day_avg", "price_change_1d",
   "price_change_1m", "dividend_yield", "beta", "target_mean_price"]

/-- Presence-guarded comparison following claim C1's words: the metric is
present (non-null) and below the threshold.  (Zero counts as present.) -/
def presentLt (x : Option ℚ) (c : ℚ) : Bool :=
  match x with
  | none => false
  | some v => decide (v < c)

/-- Presence-guarded comparison `present and > c` (see `presentLt`). -/
def presentGt (x : Option ℚ) (c : ℚ) : Bool :=
  match x with
  | none => false
  | some v => decide (c < v)

/-- Modelled from the words of claim C1: BUY iff P/E present and < 20 and
margin present and > 15 and growth present and > 10; otherwise SELL iff
P/E present and > 40 or margin present and < 5; otherwise HOLD. -/
def specRecC1 (d : LiveData) : String :=
  if presentLt (metricVal d "pe_ratio") 20 && presentGt (metricVal d "profit_margin") 15 &&
     presentGt (metricVal d "revenue_growth") 10 then "BUY"
  else if presentGt (metricVal d "pe_ratio") 40 || presentLt (metricVal d "profit_margin") 5 then "SELL"
  else "HOLD"

/-- Truthiness comparison following the amended claim C1: the metric is
present with a non-zero value and below the threshold. -/
def truthyLt (x : Option ℚ) (c : ℚ) : Bool :=
  x.elim false (fun v => decide (v ≠ 0 ∧ v < c))

/-- Truthiness comparison `present non-zero and > c` (see `truthyLt`). -/
def truthyGt (x : Option ℚ) (c : ℚ) : Bool :=
  x.elim false (fun v => decide (v ≠ 0 ∧ c < v))

/-- Modelled from the words of amended claim C1: as `specRecC1` but with
"present" strengthened to "present with a non-zero value", matching
Python truthiness. -/
def specRecC1Amended (d : LiveData) : String :=
  if truthyLt (metricVal d "pe_ratio") 20 && truthyGt (metricVal d "profit_margin") 15 &&
     truthyGt (metricVal d "revenue_growth") 10 then "BUY"
  else if truthyGt (metricVal d "pe_ratio") 40 || truthyLt (metricVal d "profit_margin") 5 then "SELL"
  else "HOLD"

/-- The latest close of a history series, i.e. the `current_price`
variable of `fetch_stock_data` before rounding. -/
def currentPriceOf (hist : List Bar) : ℚ := lastD (hist.map Bar.close)

/-- A one-day price bar used by the concrete test fixtures. -/
def barA : Bar := ⟨100, 110, 90, 1000⟩

/-- Provider metadata with every optional field absent. -/
def infoNone : InfoDict :=
  ⟨none, none, none, none, none, none, none, none, none, none, none,
   none, none, none, none, none, none, none, none, none, none⟩

/-- Provider metadata whose only present field is a non-2-decimal
market capitalization. -/
def infoMC : InfoDict :=
  ⟨none, none, none, none, some (1 / 1000), none, none, none, none, none, none,
   none, none, none, none, none, none, none, none, none, none⟩

/-- Provider metadata in which every ratio field is present with the
exact value 0. -/
def infoZero : InfoDict :=
  ⟨none, none, none, none, none, some 0, some 0, some 0, some 0, some 0, some 0,
   some 0, some 0, some 0, some 0, none, none, none, some 0, none, some 0⟩

/-- A provider reply with one bar of history and no metadata. -/
def stockA : StockData := ⟨infoNone, [barA]⟩

/-- A provider reply with empty history (unknown ticker). -/
def stockE : StockData := ⟨infoNone, []⟩

/-- A provider reply whose metadata carries the fractional market cap. -/
def stockMC : StockData := ⟨infoMC, [barA]⟩

/-- A provider reply whose ratio fields are all exactly 0. -/
def stockZ : StockData := ⟨infoZero, [barA]⟩

/-- A concrete request fixture. -/
def reqT : AnalysisRequest := ⟨"MSFT", "user@example.com"⟩

/-- Snapshot on which the literal reading of claim C1 fails: P/E is
present (25), margin is present with value 0. -/
def dC1 : LiveData :=
  [("pe_ratio", JVal.num 25), ("profit_margin", JVal.num 0), ("revenue_growth", JVal.null)]

/-- Snapshot of claim C7's BUY example. -/
def dBuy : LiveData :=
  [("pe_ratio", JVal.num 15), ("profit_margin", JVal.num 20), ("revenue_growth", JVal.num 12)]

/-- Snapshot of claim C7's SELL example. -/
def dSell : LiveData :=
  [("pe_ratio", JVal.num 45), ("profit_margin", JVal.num 20)]

/-- Snapshot of claim C7's HOLD example. -/
def dHold : LiveData :=
  [("pe_ratio", JVal.num 25), ("profit_margin", JVal.num 10)]

/-- `dBuy` with an extra irrelevant entry, for the purity witness. -/
def dBuyX : LiveData := ("ticker", JVal.str "AAA") :: dBuy

/-- A value is already rounded to two decimal places whenever it is
numeric. -/
def Rounded2 (j : JVal) : Prop := ∀ v : ℚ, j = JVal.num v → v = round2 v

theorem rnd_intCast (z : ℤ) : rndHalfEven (z : ℚ) = z := by
  norm_num [rndHalfEven]

theorem round2_idem (q : ℚ) : round2 (round2 q) = round2 q := by
  unfold round2
  rw [div_mul_cancel₀ _ (by norm_num : (100 : ℚ) ≠ 0), rnd_intCast]

theorem round2_zero : round2 0 = 0 := by
  norm_num [round2, rndHalfEven]

theorem rounded2_round2 (c : ℚ) : Rounded2 (JVal.num (round2 c)) := by
  intro v hv
  have h2 := (JVal.num.inj hv).symm
  rw [h2, round2_idem]

theorem rounded2_roundIf (x : Option ℚ) : Rounded2 (roundIf x) := by
  intro v hv
  cases x with
  | none => simp [roundIf] at hv
  | some u =>
    by_cases hu : u = 0
    · simp [roundIf, hu] at hv
    · simp [roundIf, hu] at hv
      rw [← hv, round2_idem]

theorem rounded2_roundIf100 (x : Option ℚ) : Rounded2 (roundIf100 x) := by
  intro v hv
  cases x with
  | none => simp [roundIf100] at hv
  | some u =>
    by_cases hu : u = 0
    · simp [roundIf100, hu] at hv
    · simp [roundIf100, hu] at hv
      rw [← hv, round2_idem]

theorem rounded2_divYield (x : Option ℚ) : Rounded2 (divYield x) := by
  intro v hv
  cases x with
  | none =>
    simp [divYield] at hv
    rw [← hv, round2_zero]
  | some u =>
    by_cases hu : u = 0
    · simp [divYield, hu] at hv
      rw [← hv, round2_zero]
    · simp [divYield, hu] at hv
      rw [← hv, round2_idem]

theorem mkLiveData_keys (t : String) (info : InfoDict) (l : List Bar) :
    ∀ k ∈ enumKeys, (dlookup (mkLiveData t info l) k).isSome = true := by
  intro k hk
  simp only [enumKeys] at hk
  fin_cases hk <;> rfl

theorem mkLiveData_rounded (t : String) (info : InfoDict) (l : List Bar) :
    ∀ k ∈ roundedKeys, ∀ j, dlookup (mkLiveData t info l) k = some j → Rounded2 j := by
  intro k hk j hj
  simp only [roundedKeys] at hk
  fin_cases hk <;>
    (have hx := (Option.some.inj hj).symm
     subst hx
     first
       | exact rounded2_round2 _
       | exact rounded2_roundIf _
       | exact rounded2_roundIf100 _
       | exact rounded2_divYield _)

theorem gfa_has_note (t : String) (d : LiveData) :
    ∃ p, generate_fallback_analysis t d = p ++ fallbackNote := ⟨_, rfl⟩

theorem gfa_ne_empty (t : String) (d : LiveData) : generate_fallback_analysis t d ≠ "" := by
  obtain ⟨p, hp⟩ := gfa_has_note t d
  rw [hp]
  intro h0
  have hl := congrArg String.length h0
  simp [String.length_append] at hl
  have h2 : fallbackNote.length ≠ 0 := by decide
  omega

theorem condLt_eq_truthyLt (d : LiveData) (k : String) (c : ℚ) :
    condLt (getNum d k 0) c = truthyLt (metricVal d k) c := by
  cases hx : dlookup d k with
  | none => simp [getNum, metricVal, hx, condLt, truthyLt, Option.elim]
  | some j =>
    cases j with
    | null => simp [getNum, metricVal, hx, condLt, truthyLt, Option.elim]
    | num q =>
      by_cases hq : q = 0
      · simp [getNum, metricVal, hx, condLt, truthyLt, Option.elim, hq]
      · simp [getNum, metricVal, hx, condLt, truthyLt, Option.elim, hq, decide_eq_decide]
    | str s2 => simp [getNum, metricVal, hx, condLt, truthyLt, Option.elim]

theorem condGt_eq_truthyGt (d : LiveData) (k : String) (c : ℚ) :
    condGt (getNum d k 0) c = truthyGt (metricVal d k) c := by
  cases hx : dlookup d k with
  | none => simp [getNum, metricVal, hx, condGt, truthyGt, Option.elim]
  | some j =>
    cases j with
    | null => simp [getNum, metricVal, hx, condGt, truthyGt, Option.elim]
    | num q =>
      by_cases hq : q = 0
      · simp [getNum, metricVal, hx, condGt, truthyGt, Option.elim, hq]
      · simp [getNum, metricVal, hx, condGt, truthyGt, Option.elim, hq, decide_eq_decide]
    | str s2 => simp [getNum, metricVal, hx, condGt, truthyGt, Option.elim]

/-- C1 (amended): for every snapshot the fallback recommendation is BUY
iff P/E, margin and growth are each present with a non-zero value and
pass their thresholds (pe < 20, margin > 15, growth > 10); otherwise it
is SELL iff P/E is present non-zero and > 40 or margin is present
non-zero and < 5; otherwise it is HOLD.  This is the claim's precedence
with "present" strengthened to Python truthiness (zero counts as
absent), which is what the source condition `pe and pe < 20 and ...`
implements. -/
theorem C1_amended_precedence (d : LiveData) :
    fallbackRecommendation d = specRecC1Amended d := by
  simp only [fallbackRecommendation, specRecC1Amended,
    condLt_eq_truthyLt, condGt_eq_truthyGt]

/-- C1 (counterexample to the literal claim): on a snapshot with
`pe_ratio = 25` and `profit_margin = 0` (present, zero) the code returns
HOLD, while the claim's stated precedence (margin present and < 5)
demands SELL. -/
theorem C1_counterexample :
    fallbackRecommendation dC1 = "HOLD" ∧ specRecC1 dC1 = "SELL" ∧
    fallbackRecommendation dC1 ≠ specRecC1 dC1 := by
  refine ⟨by decide, by decide, by decide⟩

/-- C1 witness: the amended precedence theorem applied at the empty
snapshot. -/
theorem C1_witness : fallbackRecommendation [] = specRecC1Amended [] :=
  C1_amended_precedence []

/-- C2: when the provider's history series is empty, `generate_report`
returns the envelope with `success = false`, a non-null error message
and both `live_data` and `report` null. -/
theorem C2_empty_history_envelope (key : Option String) (o : LLMOutcome)
    (req : AnalysisRequest) (s : StockData) (h : s.hist = []) :
    (generate_report key o req s).success = false ∧
    ((generate_report key o req s).error).isSome = true ∧
    (generate_report key o req s).live_data = none ∧
    (generate_report key o req s).report = none := by
  obtain ⟨info, hist⟩ := s
  subst h
  exact ⟨rfl, rfl, rfl, rfl⟩

/-- C2 witness: the empty-history envelope at a concrete empty reply. -/
theorem C2_witness :
    stockE.hist = [] ∧
    (generate_report none LLMOutcome.timeout reqT stockE).success = false ∧
    ((generate_report none LLMOutcome.timeout reqT stockE).error).isSome = true ∧
    (generate_report none LLMOutcome.timeout reqT stockE).live_data = none ∧
    (generate_report none LLMOutcome.timeout reqT stockE).report = none := by
  have h := C2_empty_history_envelope none LLMOutcome.timeout reqT stockE rfl
  exact ⟨rfl, h.1, h.2.1, h.2.2.1, h.2.2.2⟩

/-- C4: the Narrative Generator is a total function into strings, and on
every primary-path failure (no configured credential, or any failing
provider outcome: timeout, rate limit, malformed reply) it returns the
fallback narrative instead of propagating an error. -/
theorem C4_generator_degradation (key : Option String) (o : LLMOutcome)
    (t : String) (d : LiveData)
    (h : anthropic_client key = none ∨ llmFailed o = true) :
    generate_ai_analysis (anthropic_client key) o t d = generate_fallback_analysis t d := by
  rcases h with h | h
  · rw [h]
    rfl
  · cases o with
    | ok s => simp [llmFailed] at h
    | timeout => cases hc : anthropic_client key <;> rfl
    | rateLimited => cases hc : anthropic_client key <;> rfl
    | malformed => cases hc : anthropic_client key <;> rfl

/-- C4 witness: degradation at a concrete input (no credential,
timeout outcome). -/
theorem C4_witness :
    generate_ai_analysis (anthropic_client none) LLMOutcome.timeout "MSFT" [] =
      generate_fallback_analysis "MSFT" [] :=
  C4_generator_degradation none LLMOutcome.timeout "MSFT" [] (Or.inl rfl)

/-- C7: the three documented fallback cases are exact — (pe 15, margin
20, growth 12) gives BUY, (pe 45, margin 20) gives SELL, (pe 25, margin
10) gives HOLD — and the recommendation is a pure function of the
`pe_ratio`, `profit_margin` and `revenue_growth` snapshot fields. -/
theorem C7_fallback_cases :
    fallbackRecommendation dBuy = "BUY" ∧
    fallbackRecommendation dSell = "SELL" ∧
    fallbackRecommendation dHold = "HOLD" ∧
    ∀ d d' : LiveData,
      getNum d "pe_ratio" 0 = getNum d' "pe_ratio" 0 →
      getNum d "profit_margin" 0 = getNum d' "profit_margin" 0 →
      getNum d "revenue_growth" 0 = getNum d' "revenue_growth" 0 →
      fallbackRecommendation d = fallbackRecommendation d' := by
  refine ⟨by decide, by decide, by decide, ?_⟩
  intro d d' h1 h2 h3
  simp only [fallbackRecommendation, h1, h2, h3]

/-- C7 witness: purity applied at a concrete pair of snapshots that
agree on the three fields. -/
theorem C7_witness : fallbackRecommendation dBuyX = fallbackRecommendation dBuy :=
  C7_fallback_cases.2.2.2 dBuyX dBuy (by decide) (by decide) (by decide)

/-- C9: `verify-price` returns `valid = false` with a null price when
the provider history is empty, and `valid = true` with the latest close
rounded to two decimals when it is non-empty. -/
theorem C9_verify_price (t : String) (s : StockData) :
    (s.hist = [] → (verify_price t s).valid = false ∧ (verify_price t s).price = none) ∧
    (s.hist ≠ [] → (verify_price t s).valid = true ∧
      (verify_price t s).price = some (round2 (lastD (s.hist.map Bar.close)))) := by
  obtain ⟨info, hist⟩ := s
  cases hist with
  | nil => exact ⟨fun _ => ⟨rfl, rfl⟩, fun hne => absurd rfl hne⟩
  | cons b bs => exact ⟨fun he => absurd he (List.cons_ne_nil _ _), fun _ => ⟨rfl, rfl⟩⟩

/-- C9 witness: both branches at concrete provider replies. -/
theorem C9_witness :
    (verify_price "msft" stockE).valid = false ∧
    (verify_price "msft" stockE).price = none ∧
    (verify_price "msft" stockA).valid = true ∧
    (verify_price "msft" stockA).price = some (round2 (lastD (stockA.hist.map Bar.close))) := by
  have h1 := (C9_verify_price "msft" stockE).1 rfl
  have h2 := (C9_verify_price "msft" stockA).2 (List.cons_ne_nil _ _)
  exact ⟨h1.1, h1.2, h2.1, h2.2⟩

/-- C5 (amended): metrics absent from the provider metadata surface as
null in `live_data`, except the explicitly defaulted numeric fields:
`dividend_yield` defaults to 0, the 50-day and 200-day moving averages
default to the (rounded) current price, and `market_cap` defaults
to 0. -/
theorem C5_amended_absent_defaults (t : String) (s : StockData) (d : LiveData)
    (h : fetch_stock_data t s = Except.ok d) :
    (s.info.trailingPE = none → dlookup d "pe_ratio" = some JVal.null) ∧
    (s.info.forwardPE = none → dlookup d "forward_pe" = some JVal.null) ∧
    (s.info.pegRatio = none → dlookup d "peg_ratio" = some JVal.null) ∧
    (s.info.priceToBook = none → dlookup d "price_to_book" = some JVal.null) ∧
    (s.info.profitMargins = none → dlookup d "profit_margin" = some JVal.null) ∧
    (s.info.operatingMargins = none → dlookup d "operating_margin" = some JVal.null) ∧
    (s.info.returnOnEquity = none → dlookup d "roe" = some JVal.null) ∧
    (s.info.debtToEquity = none → dlookup d "debt_to_equity" = some JVal.null) ∧
    (s.info.revenueGrowth = none → dlookup d "revenue_growth" = some JVal.null) ∧
    (s.info.earningsGrowth = none → dlookup d "earnings_growth" = some JVal.null) ∧
    (s.info.beta = none → dlookup d "beta" = some JVal.null) ∧
    (s.info.targetMeanPrice = none → dlookup d "target_mean_price" = some JVal.null) ∧
    (s.info.dividendYield = none → dlookup d "dividend_yield" = some (JVal.num 0)) ∧
    (s.info.fiftyDayAverage = none →
      dlookup d "50_day_avg" = some (JVal.num (round2 (currentPriceOf s.hist)))) ∧
    (s.info.twoHundredDayAverage = none →
      dlookup d "200_day_avg" = some (JVal.num (round2 (currentPriceOf s.hist)))) ∧
    (s.info.marketCap = none → dlookup d "market_cap" = some (JVal.num 0)) := by
  obtain ⟨info, hist⟩ := s
  obtain ⟨lN, sec, ind, cur, mc, tpe, fpe, peg, ptb, pm, om, roeF, d2e, rg, eg,
    fda, thda, dy, bet, rk, tmp⟩ := info
  cases hist with
  | nil => simp [fetch_stock_data] at h
  | cons b bs =>
    simp [fetch_stock_data] at h
    subst h
    exact ⟨fun hf => by subst hf; rfl, fun hf => by subst hf; rfl,
      fun hf => by subst hf; rfl, fun hf => by subst hf; rfl,
      fun hf => by subst hf; rfl, fun hf => by subst hf; rfl,
      fun hf => by subst hf; rfl, fun hf => by subst hf; rfl,
      fun hf => by subst hf; rfl, fun hf => by subst hf; rfl,
      fun hf => by subst hf; rfl, fun hf => by subst hf; rfl,
      fun hf => by subst hf; rfl, fun hf => by subst hf; rfl,
      fun hf => by subst hf; rfl, fun hf => by subst hf; rfl⟩

/-- C5 (counterexample to the literal claim): `market_cap` is a metric
and `marketCap` is absent from `stockA`'s metadata, yet the `live_data`
entry is the fabricated default 0, not null — the claim's exception list
is missing `market_cap`. -/
theorem C5_counterexample :
    stockA.info.marketCap = none ∧
    fetch_stock_data "MSFT" stockA = Except.ok (mkLiveData "MSFT" stockA.info stockA.hist) ∧
    dlookup (mkLiveData "MSFT" stockA.info stockA.hist) "market_cap" = some (JVal.num 0) ∧
    JVal.num 0 ≠ JVal.null :=
  ⟨rfl, rfl, rfl, fun hx => JVal.noConfusion hx⟩

/-- C5 witness: the amended theorem applied to a reply with all metadata
absent. -/
theorem C5_witness :
    dlookup (mkLiveData "MSFT" stockA.info stockA.hist) "pe_ratio" = some JVal.null ∧
    dlookup (mkLiveData "MSFT" stockA.info stockA.hist) "dividend_yield" = some (JVal.num 0) ∧
    dlookup (mkLiveData "MSFT" stockA.info stockA.hist) "50_day_avg" =
      some (JVal.num (round2 (currentPriceOf stockA.hist))) := by
  obtain ⟨h1, -, -, -, -, -, -, -, -, -, -, -, h13, h14, -, -⟩ :=
    C5_amended_absent_defaults "MSFT" stockA (mkLiveData "MSFT" stockA.info stockA.hist) rfl
  exact ⟨h1 rfl, h13 rfl, h14 rfl⟩

/-- C10: a ratio field present in the provider metadata with the exact
value 0 is treated as absent — its `live_data` entry is null, not 0 —
because Python's truthiness check `if info.get(key)` rejects 0. -/
theorem C10_zero_treated_as_absent (t : String) (s : StockData) (d : LiveData)
    (h : fetch_stock_data t s = Except.ok d) :
    (s.info.trailingPE = some 0 → dlookup d "pe_ratio" = some JVal.null) ∧
    (s.info.forwardPE = some 0 → dlookup d "forward_pe" = some JVal.null) ∧
    (s.info.pegRatio = some 0 → dlookup d "peg_ratio" = some JVal.null) ∧
    (s.info.priceToBook = some 0 → dlookup d "price_to_book" = some JVal.null) ∧
    (s.info.profitMargins = some 0 → dlookup d "profit_margin" = some JVal.null) ∧
    (s.info.operatingMargins = some 0 → dlookup d "operating_margin" = some JVal.null) ∧
    (s.info.returnOnEquity = some 0 → dlookup d "roe" = some JVal.null) ∧
    (s.info.debtToEquity = some 0 → dlookup d "debt_to_equity" = some JVal.null) ∧
    (s.info.revenueGrowth = some 0 → dlookup d "revenue_growth" = some JVal.null) ∧
    (s.info.earningsGrowth = some 0 → dlookup d "earnings_growth" = some JVal.null) ∧
    (s.info.beta = some 0 → dlookup d "beta" = some JVal.null) ∧
    (s.info.targetMeanPrice = some 0 → dlookup d "target_mean_price" = some JVal.null) := by
  obtain ⟨info, hist⟩ := s
  obtain ⟨lN, sec, ind, cur, mc, tpe, fpe, peg, ptb, pm, om, roeF, d2e, rg, eg,
    fda, thda, dy, bet, rk, tmp⟩ := info
  cases hist with
  | nil => simp [fetch_stock_data] at h
  | cons b bs =>
    simp [fetch_stock_data] at h
    subst h
    exact ⟨fun hf => by subst hf; rfl, fun hf => by subst hf; rfl,
      fun hf => by subst hf; rfl, fun hf => by subst hf; rfl,
      fun hf => by subst hf; rfl, fun hf => by subst hf; rfl,
      fun hf => by subst hf; rfl, fun hf => by subst hf; rfl,
      fun hf => by subst hf; rfl, fun hf => by subst hf; rfl,
      fun hf => by subst hf; rfl, fun hf => by subst hf; rfl⟩

/-- C10 witness: zero-valued ratio fields of `stockZ` all surface as
null. -/
theorem C10_witness :
    dlookup (mkLiveData "MSFT" stockZ.info stockZ.hist) "pe_ratio" = some JVal.null ∧
    dlookup (mkLiveData "MSFT" stockZ.info stockZ.hist) "beta" = some JVal.null := by
  obtain ⟨h1, -, -, -, -, -, -, -, -, -, h11, -⟩ :=
    C10_zero_treated_as_absent "MSFT" stockZ (mkLiveData "MSFT" stockZ.info stockZ.hist) rfl
  exact ⟨h1 rfl, h11 rfl⟩

/-- C6 (amended): in every successful `generate-report` response, every
monetary or ratio field of `live_data` except `market_cap` — which is
passed through from the provider unrounded — equals its own 2-decimal
rounding whenever it is numeric. -/
theorem C6_amended_rounding (key : Option String) (o : LLMOutcome)
    (req : AnalysisRequest) (s : StockData) (d : LiveData)
    (h : (generate_report key o req s).live_data = some d) :
    ∀ k ∈ roundedKeys, ∀ v : ℚ, dlookup d k = some (JVal.num v) → v = round2 v := by
  intro k hk v hv
  obtain ⟨info, hist⟩ := s
  cases hist with
  | nil => simp [generate_report, fetch_stock_data] at h
  | cons b bs =>
    simp [generate_report, fetch_stock_data] at h
    subst h
    exact mkLiveData_rounded _ _ _ k hk (JVal.num v) hv v rfl

/-- C6 (counterexample to the literal claim): with a provider market
capitalization of 1/1000, the successful response carries
`market_cap = 1/1000`, a monetary field that does not equal its own
2-decimal rounding. -/
theorem C6_counterexample :
    (generate_report none LLMOutcome.timeout reqT stockMC).live_data =
      some (mkLiveData (reqT.company_name.trim.toUpper) stockMC.info stockMC.hist) ∧
    dlookup (mkLiveData (reqT.company_name.trim.toUpper) stockMC.info stockMC.hist)
      "market_cap" = some (JVal.num (1 / 1000)) ∧
    (1 / 1000 : ℚ) ≠ round2 (1 / 1000) := by
  refine ⟨rfl, rfl, by norm_num [round2, rndHalfEven]⟩

/-- C6 witness: the amended theorem applied at `current_price` of a
concrete successful response. -/
theorem C6_witness : round2 (100 : ℚ) = round2 (round2 (100 : ℚ)) := by
  have h := C6_amended_rounding none LLMOutcome.timeout reqT stockA
    (mkLiveData (reqT.company_name.trim.toUpper) stockA.info stockA.hist) rfl
  exact h "current_price" (by decide) (round2 100) rfl

/-- C8: with no language-model credential configured, every successful
report is exactly the fallback narrative, and that narrative ends with
the fixed note advising that ANTHROPIC_API_KEY must be configured for
detailed insights. -/
theorem C8_no_credential_fallback (o : LLMOutcome) (req : AnalysisRequest)
    (s : StockData) (d : LiveData)
    (h : fetch_stock_data (req.company_name.trim.toUpper) s = Except.ok d) :
    (generate_report none o req s).report =
      some (generate_fallback_analysis (req.company_name.trim.toUpper) d) ∧
    ∃ p, generate_fallback_analysis (req.company_name.trim.toUpper) d = p ++ fallbackNote := by
  refine ⟨?_, gfa_has_note _ _⟩
  simp [generate_report, h, generate_ai_analysis, anthropic_client]

/-- C8 witness: the fallback-note theorem at a concrete request. -/
theorem C8_witness :
    (generate_report none LLMOutcome.malformed reqT stockA).report =
      some (generate_fallback_analysis (reqT.company_name.trim.toUpper)
        (mkLiveData (reqT.company_name.trim.toUpper) stockA.info stockA.hist)) :=
  (C8_no_credential_fallback LLMOutcome.malformed reqT stockA
    (mkLiveData (reqT.company_name.trim.toUpper) stockA.info stockA.hist) rfl).1

/-- C3 (amended): for a non-empty history the envelope has
`success = true`, `live_data` present with every enumerated metric key,
and a non-null report which is moreover non-empty except in the one case
where the language-model call succeeds returning empty text (the
fallback narrative is never empty). -/
theorem C3_amended_success_envelope (key : Option String) (o : LLMOutcome)
    (req : AnalysisRequest) (s : StockData) (d : LiveData)
    (h : fetch_stock_data (req.company_name.trim.toUpper) s = Except.ok d) :
    (generate_report key o req s).success = true ∧
    (generate_report key o req s).live_data = some d ∧
    (∀ k ∈ enumKeys, (dlookup d k).isSome = true) ∧
    (∃ r, (generate_report key o req s).report = some r ∧
      (r = "" → anthropic_client key ≠ none ∧ o = LLMOutcome.ok "")) := by
  obtain ⟨info, hist⟩ := s
  cases hist with
  | nil => simp [fetch_stock_data] at h
  | cons b bs =>
    simp [fetch_stock_data] at h
    subst h
    refine ⟨rfl, rfl, fun k hk => mkLiveData_keys _ _ _ k hk, ?_⟩
    refine ⟨_, rfl, ?_⟩
    intro h0
    cases hc : anthropic_client key with
    | none =>
      rw [hc] at h0
      exact absurd h0 (gfa_ne_empty _ _)
    | some c =>
      cases o with
      | ok txt =>
        rw [hc] at h0
        have htxt : txt = "" := h0
        refine ⟨fun hx => Option.noConfusion hx, by rw [htxt]⟩
      | timeout =>
        rw [hc] at h0
        exact absurd h0 (gfa_ne_empty _ _)
      | rateLimited =>
        rw [hc] at h0
        exact absurd h0 (gfa_ne_empty _ _)
      | malformed =>
        rw [hc] at h0
        exact absurd h0 (gfa_ne_empty _ _)

/-- C3 (counterexample to the literal claim): when the provider call
succeeds but returns empty text, the response for a valid ticker has
`report = some ""`, which is not a non-empty string. -/
theorem C3_counterexample :
    stockA.hist ≠ [] ∧
    ¬ ∃ r, (generate_report (some "k") (LLMOutcome.ok "") reqT stockA).report = some r ∧
      r ≠ "" := by
  constructor
  · exact List.cons_ne_nil _ _
  · rintro ⟨r, hr, hne⟩
    have h0 : (generate_report (some "k") (LLMOutcome.ok "") reqT stockA).report = some "" := rfl
    rw [h0] at hr
    exact hne (Option.some.inj hr).symm

/-- C3 witness: the amended envelope theorem at a concrete request with
no credential. -/
theorem C3_witness :
    (generate_report none LLMOutcome.timeout reqT stockA).success = true ∧
    (dlookup (mkLiveData (reqT.company_name.trim.toUpper) stockA.info stockA.hist)
      "beta").isSome = true := by
  have h := C3_amended_success_envelope none LLMOutcome.timeout reqT stockA
    (mkLiveData (reqT.company_name.trim.toUpper) stockA.info stockA.hist) rfl
  exact ⟨h.1, h.2.2.1 "beta" (by decide)⟩
